import Mathlib

/-!
Verification of the consul-kv-watcher watch loop (src/watcher.go).

The development shallowly embeds the watch loop shared by WatchTree and
WatchKey. Both functions run the same per-iteration logic (src/watcher.go
lines 46-92 and 111-161), differing only in the payload type delivered on
the output channel (KVPairs for trees, *KVPair for keys), so the loop is
modelled once, generically in the payload type.

Time is modelled as a natural number of abstract clock units; durations
(the debounce duration, backoff intervals) live on the same scale.
Consul's uint64 ModifyIndex / WaitIndex is modelled as Nat (the source only
compares indices for equality and against zero, so no overflow arithmetic
occurs).
-/

namespace ConsulKVWatcher

/-- A Consul key/value record, as returned by the store client
(consul.KVPair). Only the fields the watcher touches are kept. -/
structure KVPair where
  key : String
  value : String
  modifyIndex : Nat
deriving DecidableEq

/-- A Go error value, opaque to the loop except for its retryability
classification, which the loop receives separately. -/
structure GoError where
  message : String
deriving DecidableEq

/-- A made (hence non-nil) Go channel carrying values of type alpha. A nil
channel variable is modelled as the surrounding Option being none. -/
inductive GoChan (α : Type) : Type where
  | made : GoChan α
deriving DecidableEq

/-- Modelled from the spec: the Backoff Controller of section 4.3. Its code
lives in the external cenkalti/backoff/v4 dependency, not in this
repository, so it is modelled from the spec formula
delay = min(initial x multiplier^consecutiveFailures, max) with the
multiplier 3/2 and without the optional jitter. The stateful presentation
(a current interval that is returned and then multiplied) matches both the
spec formula and the library interface the loop calls (NextBackOff /
Reset). -/
structure ExponentialBackOff where
  initialInterval : Nat
  maxInterval : Nat
  currentInterval : Nat
deriving DecidableEq

/-- Modelled from the spec: NextBackOff returns the current interval and
advances it by the multiplier 3/2, capped at the maximum. -/
def ExponentialBackOff.nextBackOff (b : ExponentialBackOff) :
    Nat × ExponentialBackOff :=
  (b.currentInterval,
    { b with currentInterval := min (b.currentInterval * 3 / 2) b.maxInterval })

/-- Modelled from the spec: Reset returns the controller to the initial
interval for the next failure. -/
def ExponentialBackOff.reset (b : ExponentialBackOff) : ExponentialBackOff :=
  { b with currentInterval := b.initialInterval }

/-- The default maximum interval of the backoff controller, an abstract
cap constant. -/
def backoffMaxInterval : Nat := 60000000000

/-- Modelled from the spec: a fresh exponential backoff controller whose
initial interval is the configured retry time (src/watcher.go lines 23-24:
bf := backoff.NewExponentialBackOff(); bf.InitialInterval = retryTime). -/
def newExponentialBackOff (retryTime : Nat) : ExponentialBackOff :=
  ⟨retryTime, backoffMaxInterval, retryTime⟩

/-- The Watcher struct (src/watcher.go lines 15-19). The consul client
handle is irrelevant to the loop logic and is dropped. Note the single
backoff field: every watch session started from one Watcher dereferences
this same controller. -/
structure Watcher where
  backoff : ExponentialBackOff
  debounceTime : Nat
deriving DecidableEq

/-- New (src/watcher.go lines 22-30): builds the one backoff controller
with InitialInterval = retryTime and stores it in the Watcher. -/
def Watcher.new (retryTime : Nat) (debounceTime : Nat) : Watcher :=
  ⟨newExponentialBackOff retryTime, debounceTime⟩

/-- A scheduled debounce emission: the time.AfterFunc timer armed at
src/watcher.go line 84 or 153, carrying the deadline and the snapshot
(with its index) that its callback will send. -/
structure Pending (α : Type) where
  deadline : Nat
  index : Nat
  snap : α
deriving DecidableEq

/-- The per-invocation local state of one watch loop: opts.WaitIndex
(zero-valued at creation), the debounceStart time.Time (none models the
zero time.Time), and the armed debounce timer (none models a nil or
stopped timer). These are local variables of WatchTree / WatchKey
(src/watcher.go lines 36-37, 101-102 and the opts literal), so each
session has its own copy. -/
structure LocalState (α : Type) where
  waitIndex : Nat
  debounceStart : Option Nat
  timer : Option (Pending α)
deriving DecidableEq

/-- The local state at session start: WaitIndex zero, debounceStart the
zero time, no timer. -/
def initLocal (α : Type) : LocalState α :=
  ⟨0, none, none⟩

/-- The outcome of one call to kv.List / kv.Get: either a payload together
with meta.LastIndex, or an error already classified by
consul.IsRetryableError. -/
inductive FetchResult (α : Type) where
  | ok (lastIndex : Nat) (snap : α)
  | err (retryable : Bool)
deriving DecidableEq

/-- The environment's input to one loop iteration: whether ctx.Done() is
already closed at the top-of-loop select (lines 50-54), the wall-clock
time at which the fetch returns, the fetch outcome, and whether ctx.Done()
fires during the backoff sleep select (lines 60-65). -/
structure IterInput (α : Type) where
  cancelAtTop : Bool
  now : Nat
  fetch : FetchResult α
  cancelDuringSleep : Bool
deriving DecidableEq

/-- One value delivered on the out channel: the wall-clock time of the
send, the ChangeIndex the snapshot carries, and the payload. -/
structure Emission (α : Type) where
  time : Nat
  index : Nat
  snap : α
deriving DecidableEq

/-- What one loop iteration produced: the updated backoff controller and
local state, the emissions sent on out during the iteration (in order),
the backoff delay slept (some d exactly when a retryable failure was
handled), whether the loop continues, and whether a fetch was performed. -/
structure IterResult (α : Type) where
  backoff : ExponentialBackOff

  loc : LocalState α
  emits : List (Emission α)
  sleep : Option Nat
  cont : Bool
  fetched : Bool
deriving DecidableEq

/-- The debounce safety valve test of src/watcher.go line 77 / 145:
!debounceStart.IsZero() && time.Since(debounceStart) > 2*debounceTime. -/
def valveTripped (debounceTime : Nat) (debounceStart : Option Nat)
    (now : Nat) : Bool :=
  match debounceStart with
  | none => false
  | some t0 => 2 * debounceTime < now - t0

/-- A timer whose deadline has passed fires while the loop is blocked in
the long poll: its callback (lines 84-87 / 153-156) sends the retained
snapshot and clears debounceStart. In this sequential model the callback
runs at its deadline, before the loop processes the fetch result. -/
def fireDue (s : LocalState α) (now : Nat) :
    LocalState α × List (Emission α) :=
  match s.timer with
  | none => (s, [])
  | some p =>
      if p.deadline ≤ now then
        ({ s with timer := none, debounceStart := none },
          [⟨p.deadline, p.index, p.snap⟩])
      else (s, [])

/-- One iteration of the watch loop body, mirroring src/watcher.go lines
49-91 (WatchTree) and 114-160 (WatchKey):
top-of-loop cancellation select; the fetch; on retryable error reset
WaitIndex to zero and sleep the next backoff interval, racing ctx.Done();
on fatal error return; on success reset the backoff, and if the index
changed stop the armed timer, then either emit immediately (WaitIndex
zero, or the safety valve tripped) or (re)open the debounce window and arm
a fresh timer for debounceTime from now, finally recording the new
WaitIndex. -/
def step (debounceTime : Nat) (b : ExponentialBackOff) (s : LocalState α)
    (inp : IterInput α) : IterResult α :=
  if inp.cancelAtTop then
    ⟨b, s, [], none, false, false⟩
  else
    let fd := fireDue s inp.now
    let s := fd.1
    let fired := fd.2
    match inp.fetch with
    | .err retryable =>
        if retryable then
          let nb := b.nextBackOff
          ⟨nb.2, { s with waitIndex := 0 }, fired, some nb.1,
            !inp.cancelDuringSleep, true⟩
        else
          ⟨b, s, fired, none, false, true⟩
    | .ok lastIndex snap =>
        let b := b.reset
        if s.waitIndex = lastIndex then
          ⟨b, s, fired, none, true, true⟩
        else
          let s := { s with timer := none }
          if s.waitIndex == 0 || valveTripped debounceTime s.debounceStart inp.now then
            ⟨b, { s with debounceStart := none, waitIndex := lastIndex },
              fired ++ [⟨inp.now, lastIndex, snap⟩], none, true, true⟩
          else
            ⟨b, { s with
                  debounceStart := some (s.debounceStart.getD inp.now),
                  timer := some ⟨inp.now + debounceTime, lastIndex, snap⟩,
                  waitIndex := lastIndex },
              fired, none, true, true⟩

/-- The accumulated outcome of running the loop over a list of iteration
inputs: final controller and local state, the per-iteration results in
order, and whether the goroutine returned (running the deferred
close(out)) before exhausting the inputs. -/
structure RunResult (α : Type) where
  backoff : ExponentialBackOff
  loc : LocalState α
  results : List (IterResult α)
  terminated : Bool
deriving DecidableEq

/-- Run the watch loop over a list of iteration inputs, stopping (channel
closed) as soon as an iteration returns. -/
def run (debounceTime : Nat) (b : ExponentialBackOff) (s : LocalState α) :
    List (IterInput α) → RunResult α
  | [] => ⟨b, s, [], false⟩
  | inp :: rest =>
      let r := step debounceTime b s inp
      if r.cont then
        let tail := run debounceTime r.backoff r.loc rest
        ⟨tail.backoff, tail.loc, r :: tail.results, tail.terminated⟩
      else
        ⟨r.backoff, r.loc, [r], true⟩

/-- All emissions of a run, in delivery order. -/
def emissionsOf (rr : RunResult α) : List (Emission α) :=
  (rr.results.map (fun r => r.emits)).flatten

/-- All backoff delays slept during a run, in order. -/
def delaysOf (rr : RunResult α) : List Nat :=
  rr.results.filterMap (fun r => r.sleep)

/-- How many fetches the run performed (iterations that got past the
top-of-loop cancellation select). -/
def fetchCountOf (rr : RunResult α) : Nat :=
  (rr.results.filter (fun r => r.fetched)).length

/-- The Go context handed to WatchTree / WatchKey; the loop only observes
whether it has been cancelled. -/
structure Ctx where
  cancelled : Bool
deriving DecidableEq

/-- The synchronous part of WatchTree (src/watcher.go lines 33-44 and 94):
out := make(chan consul.KVPairs); ...; return out, nil. The goroutine body
is the run function above; the value returned to the caller is always the
freshly made channel paired with a nil error. -/
def WatchTree (w : Watcher) (ctx : Ctx) (path : String) :
    Option (GoChan (List KVPair)) × Option GoError :=
  (some .made, none)

/-- The synchronous part of WatchKey (src/watcher.go lines 98-109 and
163): out := make(chan *consul.KVPair); ...; return out, nil. The payload
is a possibly-nil KVPair pointer, hence Option KVPair. -/
def WatchKey (w : Watcher) (ctx : Ctx) (key : String) :
    Option (GoChan (Option KVPair)) × Option GoError :=
  (some .made, none)

/-!
Two sessions sharing one Watcher. WatchTree and WatchKey both read and
mutate w.backoff, the single controller allocated by New, while their
WaitIndex / debounceStart / debounceTimer are local variables of each
invocation. The combined state below reflects exactly that layout: one
shared backoff cell, two private local states.
-/

/-- The joint state of two watch sessions started from the same Watcher:
the single shared w.backoff cell, each session's private local state, and
the backoff delays each session has slept so far. -/
structure TwoSessions where
  shared : ExponentialBackOff
  localA : LocalState Nat
  localB : LocalState Nat
  delaysA : List Nat
  delaysB : List Nat
deriving DecidableEq

/-- Both goroutines capture the same Watcher w, so both start from the one
controller stored in it; their loop-local states are fresh. -/
def twoInit (w : Watcher) : TwoSessions :=
  ⟨w.backoff, initLocal Nat, initLocal Nat, [], []⟩

/-- One loop iteration of one of the two sessions (useB selects which).
The chosen session runs the ordinary step on the shared backoff cell and
on its own local state; the shared cell's update is visible to the other
session's next iteration. -/
def twoStep (debounceTime : Nat) (st : TwoSessions) (useB : Bool)
    (inp : IterInput Nat) : TwoSessions :=
  if useB then
    let r := step debounceTime st.shared st.localB inp
    { st with shared := r.backoff, localB := r.loc,
              delaysB := st.delaysB ++ r.sleep.toList }
  else
    let r := step debounceTime st.shared st.localA inp
    { st with shared := r.backoff, localA := r.loc,
              delaysA := st.delaysA ++ r.sleep.toList }

/-!
Interleaved (racy) model of one watch session. The sequential run above
lets a fired timer callback complete before the loop handles the next
fetch; the Go runtime gives no such guarantee. time.AfterFunc runs its
callback in a fresh goroutine once the timer expires, and Timer.Stop
cannot stop a timer that has already expired, so an expired callback can
still be pending (not yet scheduled) while the main loop continues. The
model below makes every such schedule explicit: a configuration carries
the armed (still stoppable) timer and the queue of expired-but-not-yet-run
callbacks, and a step relation interleaves timer expiry, callback
execution, time passing and main-loop fetch handling. Payloads are
identified with their ChangeIndex. -/
structure RConfig where
  now : Nat
  waitIndex : Nat
  debounceStart : Option Nat
  armed : Option (Nat × Nat)
  firedQueue : List Nat
  emitted : List Nat
deriving DecidableEq

/-- The configuration at session start. -/
def rInit : RConfig :=
  ⟨0, 0, none, none, [], []⟩

/-- The main loop handles a successful fetch of lastIndex = idx at the
current instant, mirroring src/watcher.go lines 71-90: if the index
changed, Stop the armed timer (expired callbacks in firedQueue are beyond
Stop's reach), then emit immediately (WaitIndex zero or valve tripped) or
arm a fresh timer, and record the new WaitIndex. -/
def rFetchOk (debounceTime : Nat) (c : RConfig) (idx : Nat) : RConfig :=
  if c.waitIndex = idx then c
  else
    let c := { c with armed := none }
    if c.waitIndex == 0 || valveTripped debounceTime c.debounceStart c.now then
      { c with emitted := c.emitted ++ [idx], debounceStart := none,
               waitIndex := idx }
    else
      { c with debounceStart := some (c.debounceStart.getD c.now),
               armed := some (c.now + debounceTime, idx),
               waitIndex := idx }

/-- The earliest pending expired callback runs (lines 84-87 / 153-156): it
sends its retained snapshot on out and zeroes debounceStart. -/
def rRunCallback (c : RConfig) : RConfig :=
  match c.firedQueue with
  | [] => c
  | i :: rest =>
      { c with emitted := c.emitted ++ [i], debounceStart := none,
               firedQueue := rest }

/-- One interleaved scheduling action of the session: time passes, an
armed timer expires (its callback becomes pending and Stop can no longer
prevent it), a pending callback runs, or the main loop handles a
successful fetch. -/
inductive RStep (debounceTime : Nat) : RConfig → RConfig → Prop where
  | tick (c : RConfig) (t : Nat) (h : c.now ≤ t) :
      RStep debounceTime c { c with now := t }
  | expire (c : RConfig) (d i : Nat) (ha : c.armed = some (d, i))
      (hd : d ≤ c.now) :
      RStep debounceTime c
        { c with armed := none, firedQueue := c.firedQueue ++ [i] }
  | callback (c : RConfig) (h : c.firedQueue ≠ []) :
      RStep debounceTime c (rRunCallback c)
  | fetch (c : RConfig) (idx : Nat) :
      RStep debounceTime c (rFetchOk debounceTime c idx)

/-- Reachability under the interleaved scheduling of one session. -/
def RReach (debounceTime : Nat) : RConfig → RConfig → Prop :=
  Relation.ReflTransGen (RStep debounceTime)

/-- A reachable mid-race configuration: the first snapshot (index 1) was
emitted immediately, the timer armed for the snapshot at index 2 has
expired and its callback is pending but not yet run, the debounce window
opened at instant 1 is still recorded, and the clock has reached 25. -/
def rRaceMid : RConfig :=
  ⟨25, 2, some 1, none, [2], [1]⟩

/-- The configuration after the main loop handles the fetch of index 3 at
instant 25 (safety valve trips, index 3 emitted at once) and only then the
leftover callback for index 2 runs: the consumer receives 1, 3, 2. -/
def rRaceFinal : RConfig :=
  ⟨25, 3, none, none, [], [1, 3, 2]⟩

/-- A sustained stream of changes for a session with debounceTime = 10:
a successful fetch returns at every instant 0, 1, ..., 67 (one change per
0.1 debounce duration) with a fresh index each time. -/
def c5Trace : List (IterInput Nat) :=
  (List.range 68).map (fun k => ⟨false, k, .ok (k + 1) (k + 1), false⟩)

/-- The sequential run of the loop over the sustained stream, with
debounceTime = 10 and initial retry time 100. -/
def c5Run : RunResult Nat :=
  run 10 (newExponentialBackOff 100) (initLocal Nat) c5Trace

/-- The instants at which the sustained-stream run emits. -/
def c5EmitTimes : List Nat :=
  (emissionsOf c5Run).map (fun e => e.time)

/-- A retryable fetch failure arriving with no cancellation, used to
exercise the shared backoff controller. -/
def c8FailInput : IterInput Nat :=
  ⟨false, 0, .err true, false⟩

/-- Two sessions started from one Watcher (retry time 100, debounce 10):
session A handles two consecutive retryable failures, then session B
handles its first retryable failure. -/
def c8Demo : TwoSessions :=
  twoStep 10
    (twoStep 10
      (twoStep 10 (twoInit (Watcher.new 100 10)) false c8FailInput)
      false c8FailInput)
    true c8FailInput

/-- An iteration input whose fetch succeeded: no cancellation at the top
of the loop, the fetch returns at instant now with meta.LastIndex = idx
and payload snap. -/
def okInput (now idx : Nat) (snap : α) (cs : Bool) : IterInput α :=
  ⟨false, now, .ok idx snap, cs⟩

/-- An iteration input whose fetch failed with a retryable error; cs says
whether ctx.Done() fires during the backoff sleep. -/
def retryInput (α : Type) (now : Nat) (cs : Bool) : IterInput α :=
  ⟨false, now, .err true, cs⟩

/-- An iteration input whose fetch failed with a non-retryable error. -/
def fatalInput (α : Type) (now : Nat) : IterInput α :=
  ⟨false, now, .err false, false⟩

/-!
Theorems. Each claim of the specification gets one theorem below.
-/

/-- Helper: the mid-race configuration is reachable under the interleaved
scheduling: emit index 1 immediately at instant 0, open a debounce window
for index 2 at instant 1, let the armed timer expire at instant 11 with
its callback left unscheduled, and let the clock reach instant 25. -/
theorem rReach_mid : RReach 10 rInit rRaceMid := by
  have s1 : RStep 10 rInit ⟨0, 1, none, none, [], [1]⟩ :=
    RStep.fetch rInit 1
  have s2 : RStep 10 (⟨0, 1, none, none, [], [1]⟩ : RConfig)
      ⟨1, 1, none, none, [], [1]⟩ :=
    RStep.tick _ 1 (by decide)
  have s3 : RStep 10 (⟨1, 1, none, none, [], [1]⟩ : RConfig)
      ⟨1, 2, some 1, some (11, 2), [], [1]⟩ :=
    RStep.fetch _ 2
  have s4 : RStep 10 (⟨1, 2, some 1, some (11, 2), [], [1]⟩ : RConfig)
      ⟨11, 2, some 1, some (11, 2), [], [1]⟩ :=
    RStep.tick _ 11 (by decide)
  have s5 : RStep 10 (⟨11, 2, some 1, some (11, 2), [], [1]⟩ : RConfig)
      ⟨11, 2, some 1, none, [2], [1]⟩ :=
    RStep.expire _ 11 2 rfl (by decide)
  have s6 : RStep 10 (⟨11, 2, some 1, none, [2], [1]⟩ : RConfig) rRaceMid :=
    RStep.tick _ 25 (by decide)
  exact (((((Relation.ReflTransGen.single s1).tail s2).tail s3).tail
    s4).tail s5).tail s6

/-- C1: the claimed non-decreasing emission order fails on the code. A
debounce timer whose deadline has passed can no longer be stopped
(Timer.Stop is line 74 / 140), yet its callback goroutine may be scheduled
arbitrarily late; the interleaved model reaches a state whose emission
sequence is 1, 3, 2 — the superseded snapshot of index 2 is delivered
after the snapshot of index 3. -/
theorem emission_order_race_violates_monotonicity :
    RReach 10 rInit rRaceFinal ∧ rRaceFinal.emitted = [1, 3, 2] ∧
      ¬ List.Pairwise (fun a b => a ≤ b) rRaceFinal.emitted := by
  refine ⟨?_, by decide, by decide⟩
  have s7 : RStep 10 rRaceMid ⟨25, 3, none, none, [2], [1, 3]⟩ :=
    RStep.fetch rRaceMid 3
  have s8 : RStep 10 (⟨25, 3, none, none, [2], [1, 3]⟩ : RConfig)
      rRaceFinal :=
    RStep.callback _ (by decide)
  exact (rReach_mid.tail s7).tail s8

/-- C9: the claimed mutual exclusion between the timer callback and the
main loop fails on the code. In the reachable mid-race configuration a
fired callback is pending (it will write debounceStart and send on out)
while the main loop is about to read debounceStart in its safety-valve
test; the two orders of these unsynchronized accesses produce different
states, so the accesses race. -/
theorem debounce_state_unsynchronized_race :
    RReach 10 rInit rRaceMid ∧
      rRaceMid.firedQueue ≠ [] ∧
      rRaceMid.debounceStart = some 1 ∧
      (rRunCallback (rFetchOk 10 rRaceMid 3)).emitted = [1, 3, 2] ∧
      (rFetchOk 10 (rRunCallback rRaceMid) 3).emitted = [1, 2] ∧
      (rFetchOk 10 (rRunCallback rRaceMid) 3).emitted ≠
        (rRunCallback (rFetchOk 10 rRaceMid 3)).emitted :=
  ⟨rReach_mid, by decide, by decide, by decide, by decide, by decide⟩

/-- C10: WatchTree and WatchKey always hand back a freshly made (non-nil)
channel together with a nil error, for every Watcher, context and target
string. -/
theorem watch_constructors_never_fail (w : Watcher) (ctx : Ctx)
    (path key : String) :
    (WatchTree w ctx path).1.isSome = true ∧
      (WatchTree w ctx path).2 = none ∧
      (WatchKey w ctx key).1.isSome = true ∧
      (WatchKey w ctx key).2 = none :=
  ⟨rfl, rfl, rfl, rfl⟩

/-- C8 counterexample: the backoff state is not owned per session. Both
sessions of c8Demo consult the single controller stored in the Watcher:
after session A absorbs two retryable failures (sleeping 100 then 150),
session B's very first failure sleeps 225 — whereas started alone from the
same Watcher it would sleep the initial interval 100. -/
theorem shared_backoff_counterexample :
    c8Demo.delaysA = [100, 150] ∧
      c8Demo.delaysB = [225] ∧
      (twoStep 10 (twoInit (Watcher.new 100 10)) true c8FailInput).delaysB
        = [100] ∧
      (225 : Nat) ≠ 100 := by
  decide

/-- C8 amended: every watch session started from one Watcher shares the
single backoff controller stored in that Watcher. A retryable failure
handled by session A advances the shared controller, and session B's next
failure sleeps the advanced interval, not B's own initial interval; only
the debounce and index state is per-session and untouched by the other
session's steps. -/
theorem watcher_shared_backoff_amended :
    (∀ rt dt : Nat,
        (twoInit (Watcher.new rt dt)).shared = newExponentialBackOff rt ∧
        (twoInit (Watcher.new rt dt)).localA = initLocal Nat ∧
        (twoInit (Watcher.new rt dt)).localB = initLocal Nat) ∧
    (∀ (D : Nat) (st : TwoSessions) (now : Nat) (cs : Bool),
        (twoStep D st false (retryInput Nat now cs)).shared
          = (st.shared.nextBackOff).2 ∧
        (twoStep D st false (retryInput Nat now cs)).localB = st.localB ∧
        (twoStep D st false (retryInput Nat now cs)).delaysB
          = st.delaysB) ∧
    (∀ (D : Nat) (st : TwoSessions) (now now2 : Nat) (cs cs2 : Bool),
        (twoStep D (twoStep D st false (retryInput Nat now cs)) true
            (retryInput Nat now2 cs2)).delaysB
          = st.delaysB ++ [((st.shared.nextBackOff).2).currentInterval]) := by
  refine ⟨?_, ?_, ?_⟩
  · intro rt dt
    exact ⟨rfl, rfl, rfl⟩
  · intro D st now cs
    refine ⟨?_, ?_, ?_⟩ <;>
      simp [twoStep, step, retryInput, ExponentialBackOff.nextBackOff]
  · intro D st now now2 cs cs2
    simp [twoStep, step, retryInput, ExponentialBackOff.nextBackOff]

/-- C2: on the very first successful fetch of a fresh session (WaitIndex
still zero) returning a nonzero index, the snapshot is emitted at the
instant the fetch returns, no debounce timer is armed and no window is
opened, for every positive debounce duration. -/
theorem first_fetch_emitted_immediately {α : Type} (debounceTime : Nat)
    (b : ExponentialBackOff) (now idx : Nat) (snap : α) (cs : Bool)
    (hD : 0 < debounceTime) (hidx : idx ≠ 0) :
    (step debounceTime b (initLocal α) (okInput now idx snap cs)).emits
        = [⟨now, idx, snap⟩] ∧
      (step debounceTime b (initLocal α) (okInput now idx snap cs)).loc.timer
        = none ∧
      (step debounceTime b (initLocal α)
          (okInput now idx snap cs)).loc.debounceStart = none ∧
      (step debounceTime b (initLocal α) (okInput now idx snap cs)).cont
        = true := by
  refine ⟨?_, ?_, ?_, ?_⟩ <;>
    simp [step, initLocal, okInput, fireDue, Ne.symm hidx]

/-- Witness for C2 at debounce duration 10, first fetch returning index 5
at instant 0. -/
theorem first_fetch_emitted_immediately_witness :
    (step 10 (newExponentialBackOff 100) (initLocal Nat)
        (okInput 0 5 5 false)).emits = [⟨0, 5, 5⟩] ∧
      (step 10 (newExponentialBackOff 100) (initLocal Nat)
          (okInput 0 5 5 false)).loc.timer = none ∧
      (step 10 (newExponentialBackOff 100) (initLocal Nat)
          (okInput 0 5 5 false)).loc.debounceStart = none ∧
      (step 10 (newExponentialBackOff 100) (initLocal Nat)
          (okInput 0 5 5 false)).cont = true :=
  first_fetch_emitted_immediately 10 (newExponentialBackOff 100) 0 5 5 false
    (by decide) (by decide)

/-- C3: a retryable fetch failure resets WaitIndex to zero, sleeps exactly
the controller's next interval, and the sleep races cancellation: if
ctx.Done() fires during the sleep the loop returns (the deferred close
runs, no further iteration fetches), otherwise the loop continues with the
remaining inputs; the failure itself puts nothing on the out channel. -/
theorem retryable_failure_backoff_and_cancellation {α : Type}
    (debounceTime : Nat) (b : ExponentialBackOff) (s : LocalState α)
    (now : Nat) (cs : Bool) (rest : List (IterInput α)) :
    (step debounceTime b s (retryInput α now cs)).loc.waitIndex = 0 ∧
      (step debounceTime b s (retryInput α now cs)).sleep
        = some b.currentInterval ∧
      (step debounceTime b s (retryInput α now cs)).backoff
        = (b.nextBackOff).2 ∧
      (s.timer = none →
        (step debounceTime b s (retryInput α now cs)).emits = []) ∧
      (step debounceTime b s (retryInput α now cs)).cont = !cs ∧
      (cs = true →
        (run debounceTime b s (retryInput α now cs :: rest)).results
            = [step debounceTime b s (retryInput α now cs)] ∧
          (run debounceTime b s (retryInput α now cs :: rest)).terminated
            = true ∧
          fetchCountOf (run debounceTime b s (retryInput α now cs :: rest))
            = 1) ∧
      (cs = false →
        (run debounceTime b s (retryInput α now cs :: rest)).results
          = step debounceTime b s (retryInput α now cs) ::
              (run debounceTime
                (step debounceTime b s (retryInput α now cs)).backoff
                (step debounceTime b s (retryInput α now cs)).loc
                rest).results) := by
  refine ⟨?_, ?_, ?_, ?_, ?_, ?_, ?_⟩
  · simp [step, retryInput]
  · simp [step, retryInput, ExponentialBackOff.nextBackOff]
  · simp [step, retryInput, ExponentialBackOff.nextBackOff]
  · intro ht
    simp [step, retryInput, fireDue, ht]
  · simp [step, retryInput]
  · intro hcs
    subst hcs
    refine ⟨?_, ?_, ?_⟩ <;> simp [run, step, retryInput, fetchCountOf]
  · intro hcs
    subst hcs
    simp [run, step, retryInput]

/-- Witness for C3 at debounce duration 10, a retryable failure at instant
7 with cancellation firing during the backoff sleep. -/
theorem retryable_failure_backoff_and_cancellation_witness :
    (step 10 (newExponentialBackOff 100) (initLocal Nat)
        (retryInput Nat 7 true)).loc.waitIndex = 0 ∧
      (step 10 (newExponentialBackOff 100) (initLocal Nat)
          (retryInput Nat 7 true)).sleep
        = some (newExponentialBackOff 100).currentInterval ∧
      (step 10 (newExponentialBackOff 100) (initLocal Nat)
          (retryInput Nat 7 true)).backoff
        = ((newExponentialBackOff 100).nextBackOff).2 ∧
      ((initLocal Nat).timer = none →
        (step 10 (newExponentialBackOff 100) (initLocal Nat)
            (retryInput Nat 7 true)).emits = []) ∧
      (step 10 (newExponentialBackOff 100) (initLocal Nat)
          (retryInput Nat 7 true)).cont = !true ∧
      (true = true →
        (run 10 (newExponentialBackOff 100) (initLocal Nat)
            (retryInput Nat 7 true :: [])).results
            = [step 10 (newExponentialBackOff 100) (initLocal Nat)
                (retryInput Nat 7 true)] ∧
          (run 10 (newExponentialBackOff 100) (initLocal Nat)
              (retryInput Nat 7 true :: [])).terminated = true ∧
          fetchCountOf (run 10 (newExponentialBackOff 100) (initLocal Nat)
              (retryInput Nat 7 true :: [])) = 1) ∧
      (true = false →
        (run 10 (newExponentialBackOff 100) (initLocal Nat)
            (retryInput Nat 7 true :: [])).results
          = step 10 (newExponentialBackOff 100) (initLocal Nat)
              (retryInput Nat 7 true) ::
                (run 10
                  (step 10 (newExponentialBackOff 100) (initLocal Nat)
                    (retryInput Nat 7 true)).backoff
                  (step 10 (newExponentialBackOff 100) (initLocal Nat)
                    (retryInput Nat 7 true)).loc
                  []).results) :=
  retryable_failure_backoff_and_cancellation 10 (newExponentialBackOff 100)
    (initLocal Nat) 7 true []

/-- C4: a non-retryable fetch failure makes the loop return at once: no
backoff sleep, the run over any remaining inputs stops there (the deferred
close of the out channel runs), exactly one fetch happened in that run
tail, and nothing further is emitted; the failing iteration itself emits
nothing once no timer was armed. The out channel's element type carries
only snapshots, so no error value can be delivered on it. -/
theorem fatal_failure_terminates_loop {α : Type} (debounceTime : Nat)
    (b : ExponentialBackOff) (s : LocalState α) (now : Nat)
    (rest : List (IterInput α)) :
    (step debounceTime b s (fatalInput α now)).cont = false ∧
      (step debounceTime b s (fatalInput α now)).sleep = none ∧
      (s.timer = none →
        (step debounceTime b s (fatalInput α now)).emits = []) ∧
      (run debounceTime b s (fatalInput α now :: rest)).results
        = [step debounceTime b s (fatalInput α now)] ∧
      (run debounceTime b s (fatalInput α now :: rest)).terminated = true ∧
      fetchCountOf (run debounceTime b s (fatalInput α now :: rest)) = 1 ∧
      emissionsOf (run debounceTime b s (fatalInput α now :: rest))
        = (step debounceTime b s (fatalInput α now)).emits := by
  refine ⟨?_, ?_, ?_, ?_, ?_, ?_, ?_⟩
  · simp [step, fatalInput]
  · simp [step, fatalInput]
  · intro ht
    simp [step, fatalInput, fireDue, ht]
  · simp [run, step, fatalInput]
  · simp [run, step, fatalInput]
  · simp [run, step, fatalInput, fetchCountOf]
  · simp [run, step, fatalInput, emissionsOf]

/-- Witness for C4 at debounce duration 10, a fatal failure at instant 3
with two further inputs that are never fetched. -/
theorem fatal_failure_terminates_loop_witness :
    (step 10 (newExponentialBackOff 100) (initLocal Nat)
        (fatalInput Nat 3)).cont = false ∧
      (step 10 (newExponentialBackOff 100) (initLocal Nat)
          (fatalInput Nat 3)).sleep = none ∧
      ((initLocal Nat).timer = none →
        (step 10 (newExponentialBackOff 100) (initLocal Nat)
            (fatalInput Nat 3)).emits = []) ∧
      (run 10 (newExponentialBackOff 100) (initLocal Nat)
          (fatalInput Nat 3 :: [okInput 4 9 9 false, okInput 5 11 11 false])).results
        = [step 10 (newExponentialBackOff 100) (initLocal Nat)
            (fatalInput Nat 3)] ∧
      (run 10 (newExponentialBackOff 100) (initLocal Nat)
          (fatalInput Nat 3 :: [okInput 4 9 9 false, okInput 5 11 11 false])).terminated
        = true ∧
      fetchCountOf (run 10 (newExponentialBackOff 100) (initLocal Nat)
          (fatalInput Nat 3 :: [okInput 4 9 9 false, okInput 5 11 11 false]))
        = 1 ∧
      emissionsOf (run 10 (newExponentialBackOff 100) (initLocal Nat)
          (fatalInput Nat 3 :: [okInput 4 9 9 false, okInput 5 11 11 false]))
        = (step 10 (newExponentialBackOff 100) (initLocal Nat)
            (fatalInput Nat 3)).emits :=
  fatal_failure_terminates_loop 10 (newExponentialBackOff 100)
    (initLocal Nat) 3 [okInput 4 9 9 false, okInput 5 11 11 false]

/-- C5 counterexample: with debounce duration 10 and a change arriving at
every instant 0..67 (one change per 0.1 debounce duration), the sequential
run emits only at instants 0, 22, 44 and 66; the window of length
2 x 10 = 20 spanning instants 1..21 contains no emission, so it is not the
case that at least one emission occurs within every 2 x debounceDuration
window. -/
theorem starvation_valve_2D_window_counterexample :
    c5EmitTimes = [0, 22, 44, 66] ∧
      c5EmitTimes.countP (fun e => decide (1 ≤ e) && decide (e ≤ 21)) = 0 ∧
      c5Trace = (List.range 68).map
        (fun k => okInput k (k + 1) (k + 1) false) := by
  decide

/-- C5 amended: a changed index arriving while a window is open whose age
exceeds twice the debounce duration is emitted at once, the pending timer
is cancelled and the window closed; consequently, under the sustained
stream of changes every 0.1 debounce duration, at least one emission
occurs within every window of length 2 x debounceDuration plus two
inter-arrival periods (2 x 10 + 2 = 22). -/
theorem starvation_valve_amended :
    (∀ (α : Type) (debounceTime : Nat) (b : ExponentialBackOff)
        (s : LocalState α) (now idx : Nat) (snap : α) (t0 : Nat) (cs : Bool),
        s.waitIndex ≠ idx → s.waitIndex ≠ 0 → s.debounceStart = some t0 →
        2 * debounceTime < now - t0 →
        (∀ p, s.timer = some p → now < p.deadline) →
        (step debounceTime b s (okInput now idx snap cs)).emits
            = [⟨now, idx, snap⟩] ∧
          (step debounceTime b s (okInput now idx snap cs)).loc.timer
            = none ∧
          (step debounceTime b s (okInput now idx snap cs)).loc.debounceStart
            = none) ∧
    (∀ t, t ≤ 45 → ∃ e ∈ c5EmitTimes, t ≤ e ∧ e ≤ t + 22) := by
  constructor
  · intro α debounceTime b s now idx snap t0 cs h1 h2 h3 h4 h5
    have hfd : fireDue s now = (s, []) := by
      cases ht : s.timer with
      | none => simp [fireDue, ht]
      | some p =>
          have hp := h5 p ht
          simp [fireDue, ht, Nat.not_le.mpr hp]
    refine ⟨?_, ?_, ?_⟩ <;>
      simp [step, okInput, hfd, h1, h2, h3, valveTripped, h4]
  · decide

/-- Witness for C5 amended: session at WaitIndex 2 with a window opened at
instant 1, change to index 3 arriving at instant 25 (age 24 > 20), and the
concrete sustained-stream window starting at instant 10. -/
theorem starvation_valve_amended_witness :
    ((step 10 (newExponentialBackOff 100)
          (⟨2, some 1, none⟩ : LocalState Nat) (okInput 25 3 3 false)).emits
        = [⟨25, 3, 3⟩] ∧
      (step 10 (newExponentialBackOff 100)
          (⟨2, some 1, none⟩ : LocalState Nat)
          (okInput 25 3 3 false)).loc.timer = none ∧
      (step 10 (newExponentialBackOff 100)
          (⟨2, some 1, none⟩ : LocalState Nat)
          (okInput 25 3 3 false)).loc.debounceStart = none) ∧
    (∃ e ∈ c5EmitTimes, 10 ≤ e ∧ e ≤ 32) :=
  ⟨starvation_valve_amended.1 Nat 10 (newExponentialBackOff 100)
      ⟨2, some 1, none⟩ 25 3 3 1 false (by decide) (by decide) rfl
      (by decide) (fun p hp => nomatch hp),
    starvation_valve_amended.2 10 (by decide)⟩

/-- C6: a change arriving while a window is open, the valve untripped and
the pending timer not yet expired cancels that pending emission without
delivering it and arms a fresh timer a full debounce duration from now,
carrying the latest snapshot, while the recorded window start is left
unchanged; and a change arriving with no window open records the window
start as the current instant. -/
theorem debounce_reschedule_keeps_window_start :
    (∀ (α : Type) (debounceTime : Nat) (b : ExponentialBackOff)
        (s : LocalState α) (now idx : Nat) (snap : α) (t0 : Nat) (cs : Bool),
        s.waitIndex ≠ idx → s.waitIndex ≠ 0 → s.debounceStart = some t0 →
        now - t0 ≤ 2 * debounceTime →
        (∀ p, s.timer = some p → now < p.deadline) →
        (step debounceTime b s (okInput now idx snap cs)).loc.debounceStart
            = some t0 ∧
          (step debounceTime b s (okInput now idx snap cs)).loc.timer
            = some ⟨now + debounceTime, idx, snap⟩ ∧
          (step debounceTime b s (okInput now idx snap cs)).emits = []) ∧
    (∀ (α : Type) (debounceTime : Nat) (b : ExponentialBackOff)
        (wi now idx : Nat) (snap : α) (cs : Bool),
        wi ≠ idx → wi ≠ 0 →
        (step debounceTime b (⟨wi, none, none⟩ : LocalState α)
            (okInput now idx snap cs)).loc.debounceStart = some now) := by
  constructor
  · intro α debounceTime b s now idx snap t0 cs h1 h2 h3 h4 h5
    have hfd : fireDue s now = (s, []) := by
      cases ht : s.timer with
      | none => simp [fireDue, ht]
      | some p =>
          have hp := h5 p ht
          simp [fireDue, ht, Nat.not_le.mpr hp]
    refine ⟨?_, ?_, ?_⟩ <;>
      simp [step, okInput, hfd, h1, h2, h3, valveTripped, Nat.not_lt.mpr h4]
  · intro α debounceTime b wi now idx snap cs h1 h2
    simp [step, okInput, fireDue, valveTripped, h1, h2]

/-- Witness for C6: rescheduling at instant 5 inside a window opened at
instant 1 (age 4, valve untripped), and opening a window at instant 5
from the no-window state. -/
theorem debounce_reschedule_keeps_window_start_witness :
    ((step 10 (newExponentialBackOff 100)
          (⟨2, some 1, none⟩ : LocalState Nat)
          (okInput 5 3 3 false)).loc.debounceStart = some 1 ∧
      (step 10 (newExponentialBackOff 100)
          (⟨2, some 1, none⟩ : LocalState Nat)
          (okInput 5 3 3 false)).loc.timer = some ⟨15, 3, 3⟩ ∧
      (step 10 (newExponentialBackOff 100)
          (⟨2, some 1, none⟩ : LocalState Nat)
          (okInput 5 3 3 false)).emits = []) ∧
    (step 10 (newExponentialBackOff 100)
        (⟨2, none, none⟩ : LocalState Nat)
        (okInput 5 3 3 false)).loc.debounceStart = some 5 :=
  ⟨debounce_reschedule_keeps_window_start.1 Nat 10 (newExponentialBackOff 100)
      ⟨2, some 1, none⟩ 5 3 3 1 false (by decide) (by decide) rfl (by decide)
      (fun p hp => nomatch hp),
    debounce_reschedule_keeps_window_start.2 Nat 10 (newExponentialBackOff 100)
      2 5 3 3 false (by decide) (by decide)⟩

/-- C7: the delay requested on a retryable failure is the controller's
current interval, consecutive requested delays strictly increase unless
capped at the maximum, the first delay of a fresh controller is the
configured retry time, every successful fetch resets the controller, and
the controller consumed and advanced by the loop is the session's backoff
state threaded through step. -/
theorem backoff_growth_and_reset :
    (∀ b : ExponentialBackOff, 2 ≤ b.currentInterval →
        b.nextBackOff.1 < ((b.nextBackOff).2).nextBackOff.1 ∨
          ((b.nextBackOff).2).nextBackOff.1 = b.maxInterval) ∧
    (∀ b : ExponentialBackOff,
        (b.reset).nextBackOff.1 = b.initialInterval) ∧
    (∀ r : Nat, (newExponentialBackOff r).nextBackOff.1 = r) ∧
    (∀ (α : Type) (debounceTime : Nat) (b : ExponentialBackOff)
        (s : LocalState α) (now idx : Nat) (snap : α) (cs : Bool),
        (step debounceTime b s (okInput now idx snap cs)).backoff
          = b.reset) ∧
    (∀ (α : Type) (debounceTime : Nat) (b : ExponentialBackOff)
        (s : LocalState α) (now : Nat) (cs : Bool),
        (step debounceTime b s (retryInput α now cs)).sleep
            = some b.currentInterval ∧
          (step debounceTime b s (retryInput α now cs)).backoff
            = (b.nextBackOff).2) := by
  refine ⟨?_, ?_, ?_, ?_, ?_⟩
  · intro b hb
    simp only [ExponentialBackOff.nextBackOff]
    omega
  · intro b
    rfl
  · intro r
    rfl
  · intro α debounceTime b s now idx snap cs
    simp only [step, okInput]
    split
    · simp_all
    · split
      · rfl
      · split <;> rfl
  · intro α debounceTime b s now cs
    constructor
    · simp [step, retryInput, ExponentialBackOff.nextBackOff]
    · simp [step, retryInput, ExponentialBackOff.nextBackOff]

/-- Witness for C7 on a fresh controller with retry time 100: the first
two delays are 100 then 150, a reset controller next sleeps 100, and the
loop's success and failure steps thread the controller as claimed. -/
theorem backoff_growth_and_reset_witness :
    ((newExponentialBackOff 100).nextBackOff.1
        < (((newExponentialBackOff 100).nextBackOff).2).nextBackOff.1 ∨
      (((newExponentialBackOff 100).nextBackOff).2).nextBackOff.1
        = (newExponentialBackOff 100).maxInterval) ∧
    ((newExponentialBackOff 100).reset).nextBackOff.1
      = (newExponentialBackOff 100).initialInterval ∧
    (newExponentialBackOff 100).nextBackOff.1 = 100 ∧
    (step 10 (newExponentialBackOff 100) (initLocal Nat)
        (okInput 0 5 5 false)).backoff = (newExponentialBackOff 100).reset ∧
    ((step 10 (newExponentialBackOff 100) (initLocal Nat)
          (retryInput Nat 0 false)).sleep
        = some (newExponentialBackOff 100).currentInterval ∧
      (step 10 (newExponentialBackOff 100) (initLocal Nat)
          (retryInput Nat 0 false)).backoff
        = ((newExponentialBackOff 100).nextBackOff).2) :=
  ⟨backoff_growth_and_reset.1 (newExponentialBackOff 100) (by decide),
    backoff_growth_and_reset.2.1 (newExponentialBackOff 100),
    backoff_growth_and_reset.2.2.1 100,
    backoff_growth_and_reset.2.2.2.1 Nat 10 (newExponentialBackOff 100)
      (initLocal Nat) 0 5 5 false,
    backoff_growth_and_reset.2.2.2.2 Nat 10 (newExponentialBackOff 100)
      (initLocal Nat) 0 false⟩

end ConsulKVWatcher
